import Mathlib

/-!
Shallow embedding of `connectionpool.py` (a single-host HTTP connection
pool with retry/redirect logic) and proofs about its behaviour.

Modelling conventions:
* Connections are identified by natural-number ids handed out by the pool.
* The bounded FIFO container `Queue` is modelled as a list whose head is the
  front; a slot holds `Option Nat` (`none` is the pre-seeded "no connection
  yet" sentinel, `some c` a live connection handle).
* Since the embedding is sequential, a blocking `Queue.get` on an empty
  queue with no timeout blocks forever (constructor `blocks`); with a
  timeout it raises `Empty` after the wait (no producer can appear).
* Timeouts are naturals (`Option Nat`, `none` = Python `None`).
* The network is a scripted trace: each exchange consumes one
  `ExchangeOutcome` (a full transport response, a timeout, or a
  transport-level exception such as `HTTPException` / `socket.error`).
-/

/-- Result of `queue.Queue.get` for a single caller with no concurrent
producer: the front item, the `Empty` exception, or blocking forever. -/
inductive QueueGetResult where
  | item (x : Option Nat)
  | empty
  | blocks
deriving Repr, DecidableEq

/-- `queue.Queue.get(block=block, timeout=timeout)` with no concurrent
producer. A non-empty queue yields its front. An empty queue: non-blocking
get raises `Empty` at once; blocking get with a timeout raises `Empty`
after the wait; blocking get with no timeout never returns. -/
def queueGet (q : List (Option Nat)) (block : Bool) (timeout : Option Nat) :
    QueueGetResult :=
  match q with
  | x :: _ => .item x
  | [] =>
    if block then
      match timeout with
      | some _ => .empty
      | none => .blocks
    else .empty

/-- State of an `HTTPConnectionPool` instance (`connectionpool.py`,
`__init__`): host/port/timeout/block as given, `capacity` is `maxsize`,
`queue` the `Queue(maxsize)` pre-filled with `maxsize` `None` sentinels,
plus the two diagnostic counters. `nextId` generates fresh connection ids
(it stands for allocating a new `HTTPConnection` object). -/
structure PoolState where
  host : String
  port : Option Int
  timeout : Option Nat
  capacity : Nat
  block : Bool
  queue : List (Option Nat)
  num_connections : Nat
  num_requests : Nat
  nextId : Nat
deriving Repr, DecidableEq

namespace HTTPConnectionPool

/-- `HTTPConnectionPool.__init__(host, port, timeout, maxsize, block)`:
the queue is pre-filled with `maxsize` empty-slot sentinels. -/
def mkPool (host : String) (port : Option Int) (timeout : Option Nat)
    (maxsize : Nat) (block : Bool) : PoolState :=
  { host := host, port := port, timeout := timeout, capacity := maxsize,
    block := block, queue := List.replicate maxsize none,
    num_connections := 0, num_requests := 0, nextId := 0 }

/-- `_new_conn`: bump `num_connections` and return a fresh connection. -/
def _new_conn (p : PoolState) : Nat × PoolState :=
  (p.nextId, { p with num_connections := p.num_connections + 1,
                      nextId := p.nextId + 1 })

/-- Outcome of `_get_conn`: the Python method either returns a connection
or (blocking mode, empty pool, no timeout, no producer) never returns.
It has no error outcome: the `Empty` exception is caught inside. -/
inductive GetConnResult where
  | conn (c : Nat)
  | blocked
deriving Repr, DecidableEq

/-- `_get_conn(timeout)`: `pool.get(block=self.block, timeout=timeout)`;
`Empty` is swallowed (`pass`), and `return conn or self._new_conn()` — a
popped `None` sentinel is falsy, so it too yields a fresh connection. -/
def _get_conn (p : PoolState) (timeout : Option Nat) :
    GetConnResult × PoolState :=
  match queueGet p.queue p.block timeout with
  | .item x =>
    let p1 : PoolState := { p with queue := p.queue.tail }
    match x with
    | some c => (.conn c, p1)
    | none =>
      let r := _new_conn p1
      (.conn r.1, r.2)
  | .empty =>
    let r := _new_conn p
    (.conn r.1, r.2)
  | .blocks => (.blocked, p)

/-- `_put_conn(conn)`: `pool.put(conn, block=False)`; `Full` (raised iff
`0 < maxsize` and the queue is at capacity) is caught and the connection
silently discarded (only a message is printed). Total: never raises. -/
def _put_conn (p : PoolState) (c : Nat) : PoolState :=
  if 0 < p.capacity ∧ p.capacity ≤ p.queue.length then p
  else { p with queue := p.queue ++ [some c] }

end HTTPConnectionPool

/-- Number of live connection handles resident in the pool's container
(sentinel slots do not count as resident handles). -/
def residentCount (p : PoolState) : Nat :=
  p.queue.countP (fun x => x.isSome)

/-- Python `dict` update `d[k] = v` on an insertion-ordered association
list with unique keys: an existing key keeps its position and gets the new
value, a new key is appended. -/
def pyDictInsert (d : List (String × String)) (k v : String) :
    List (String × String) :=
  if d.any (fun q => q.1 == k) then
    d.map (fun q => if q.1 == k then (q.1, v) else q)
  else d ++ [(k, v)]

/-- Python `dict(pairs)`: inserting the pairs left to right (so duplicate
keys are last-value-wins, first-insertion-ordered). -/
def pyDict (pairs : List (String × String)) : List (String × String) :=
  pairs.foldl (fun d q => pyDictInsert d q.1 q.2) []

/-- Python `d.get(k)` / `d[k]` lookup on the association-list dict. -/
def dictGet (d : List (String × String)) (k : String) : Option String :=
  (d.find? (fun q => q.1 == k)).map (fun q => q.2)

/-- The raw transport response (`http.client.HTTPResponse`): status,
reason, version, the header (name, value) pairs as the transport reports
them (`r.getheaders()`), and the fully read body (`r.read()`). -/
structure TransportResponse where
  body : String
  headerPairs : List (String × String)
  status : Int
  version : Int
  reason : String
deriving Repr, DecidableEq

/-- `HTTPResponse` (the module's own response container): pre-loaded data,
a header `dict`, status, version, reason. -/
structure HTTPResponse where
  data : String
  headers : List (String × String)
  status : Int
  version : Int
  reason : Option String
deriving Repr, DecidableEq

namespace HTTPResponse

/-- `HTTPResponse.from_httplib(r)`: copies the fields, building the header
dict as `dict(r.getheaders())`. -/
def from_httplib (r : TransportResponse) : HTTPResponse :=
  { data := r.body, headers := pyDict r.headerPairs, status := r.status,
    version := r.version, reason := some r.reason }

/-- `getheader(name, default=None)`: plain `self.headers.get(name, default)`
with the default `None`. -/
def getheader (r : HTTPResponse) (name : String) : Option String :=
  dictGet r.headers name

end HTTPResponse

/-- Scripted outcome of one transport exchange
(`conn.request` + `conn.getresponse` + the `r.read()` in `from_httplib`):
a complete response, a `TimeoutError`, or a transport-level exception
(`http.client.HTTPException` / `socket.error`). -/
inductive ExchangeOutcome where
  | success (r : TransportResponse)
  | timeout
  | transportError
deriving Repr, DecidableEq

/-- How a call to `urlopen` ends. `maxRetryError url` is
`raise MaxRetryError(... % url)`; `timeoutRaised t` is
`raise TimeoutError("Request timed out after %f seconds" % self.timeout)`
with `self.timeout = t`; `typeErrorRaised` is the `TypeError` that the
same `raise` statement produces when `self.timeout` is `None` (the `%f`
format rejects `None`); `blocked` marks an acquisition that never returns;
`hung` marks exhaustion of the scripted trace (model artifact). -/
inductive UrlopenResult where
  | ok (resp : HTTPResponse)
  | maxRetryError (url : String)
  | timeoutRaised (t : Nat)
  | typeErrorRaised
  | blocked
  | hung
deriving Repr, DecidableEq

namespace HTTPConnectionPool

/-- `urlopen(method, url, body, headers, retries, redirect)` over the
scripted exchange trace. Returns the outcome, the final pool state, and
the unconsumed part of the trace. Mirrors the source line by line:
raise `MaxRetryError` when `retries < 0`; `_get_conn(self.timeout)`;
`num_requests += 1`; perform the exchange (one trace entry); on
`TimeoutError` re-raise a `TimeoutError` formatting `self.timeout` with
`%f` (a `TypeError` when it is `None`); on `HTTPException`/`socket.error`
recurse with `retries - 1`; on success `_put_conn` the connection back,
then follow a 301/302/303/307 redirect when the header dict has the exact
key `location`, recursing on `headers.get('location')` with
`retries - 1`; otherwise return the response. -/
def urlopen (p : PoolState) (trace : List ExchangeOutcome)
    (method url : String) (body : Option String)
    (headers : List (String × String)) (retries : Int) (redirect : Bool) :
    UrlopenResult × PoolState × List ExchangeOutcome :=
  if retries < 0 then (.maxRetryError url, p, trace)
  else
    match _get_conn p p.timeout with
    | (.blocked, p1) => (.blocked, p1, trace)
    | (.conn c, p1) =>
      let p2 : PoolState := { p1 with num_requests := p1.num_requests + 1 }
      match trace with
      | [] => (.hung, p2, [])
      | outcome :: rest =>
        match outcome with
        | .timeout =>
          match p.timeout with
          | some t => (.timeoutRaised t, p2, rest)
          | none => (.typeErrorRaised, p2, rest)
        | .transportError =>
          urlopen p2 rest method url body headers (retries - 1) redirect
        | .success r =>
          let resp := HTTPResponse.from_httplib r
          let p3 := _put_conn p2 c
          if redirect = true ∧ resp.status ∈ ([301, 302, 303, 307] : List Int) then
            match dictGet resp.headers "location" with
            | some loc =>
              urlopen p3 rest method loc body headers (retries - 1) redirect
            | none => (.ok resp, p3, rest)
          else (.ok resp, p3, rest)

end HTTPConnectionPool

/-- Index of the first occurrence of `needle` in `hay`, if any. -/
def findSub (hay needle : List Char) : Option Nat :=
  match hay with
  | [] => if needle = [] then some 0 else none
  | _ :: t =>
    if needle.isPrefixOf hay then some 0
    else (findSub t needle).map (fun i => i + 1)

/-- Python `s.split(sep, 1)` when `sep in s`: the pieces before and after
the first occurrence of `sep`; `none` when `sep` does not occur (in the
source that case is guarded by an `in` test). -/
def splitOnce (s sep : String) : Option (String × String) :=
  (findSub s.data sep.data).map (fun i =>
    (String.mk (s.data.take i), String.mk (s.data.drop (i + sep.data.length))))

/-- Numeric value of a digit list (most significant first). -/
def digitsVal (ds : List Char) : Nat :=
  ds.foldl (fun a c => a * 10 + (c.toNat - ('0').toNat)) 0

/-- Python `int(s)` for decimal strings: optional surrounding whitespace,
an optional single sign, then at least one ASCII digit; anything else
raises `ValueError` (modelled as `none`). (Python's underscore digit
grouping is not modelled; no input considered here uses it.) -/
def pyInt (s : String) : Option Int :=
  let core := ((s.data.dropWhile Char.isWhitespace).reverse.dropWhile
    Char.isWhitespace).reverse
  match core with
  | [] => none
  | c :: rest =>
    let signed : Int × List Char :=
      if c = '-' then (-1, rest) else if c = '+' then (1, rest) else (1, core)
    if signed.2 ≠ [] ∧ signed.2.all Char.isDigit then
      some (signed.1 * (digitsVal signed.2 : Int))
    else none

namespace HTTPConnectionPool

/-- `HTTPConnectionPool.get_host(url)`: strip an optional `scheme//`, then
an optional `/path`, then split an optional `:port`, parsing the port with
`int()`. `none` models the `ValueError` that `int()` raises on a
non-numeric port. -/
def get_host (url : String) : Option (String × Option Int) :=
  let url1 := match splitOnce url "//" with
    | some sp => sp.2
    | none => url
  let url2 := match splitOnce url1 "/" with
    | some sp => sp.1
    | none => url1
  match splitOnce url2 ":" with
  | some sp =>
    match pyInt sp.2 with
    | some port => some (sp.1, some port)
    | none => none
  | none => some (url2, none)

/-- `HTTPConnectionPool.from_url(url, timeout=None, maxsize=10)`: parse
host and port with `get_host` and construct a pool (block defaults to
`False`). `none` models `get_host` raising. -/
def from_url (url : String) (timeout : Option Nat) (maxsize : Nat) :
    Option PoolState :=
  (get_host url).map (fun hp => mkPool hp.1 hp.2 timeout maxsize false)

end HTTPConnectionPool

/-- `_get_conn(self.timeout)` never returns (with no concurrent producer)
exactly when the pool is empty, in blocking mode, and has no timeout. -/
def getBlocks (p : PoolState) : Bool :=
  p.queue.isEmpty && p.block && p.timeout.isNone

/-- A 302 response whose transport reports the redirect target under the
exact lowercase key `location`. -/
def r302t : TransportResponse :=
  { body := "", headerPairs := [("location", "http://h/b")], status := 302,
    version := 11, reason := "Found" }

/-- A plain 200 response. -/
def r200t : TransportResponse :=
  { body := "welcome", headerPairs := [("content-type", "text/html")],
    status := 200, version := 11, reason := "OK" }

/-- A 302 response whose transport reports the redirect target only under
the capitalised key `Location`. -/
def rLoc302t : TransportResponse :=
  { body := "", headerPairs := [("Location", "http://h/c")], status := 302,
    version := 11, reason := "Found" }

/-- A freshly constructed default pool: capacity 1, non-blocking, no
timeout. -/
def poolA : PoolState := HTTPConnectionPool.mkPool "h" none none 1 false

/-- A capacity-2 pool whose container is full of resident handles. -/
def poolFull : PoolState :=
  { host := "h", port := none, timeout := none, capacity := 2,
    block := false, queue := [some 0, some 1], num_connections := 2,
    num_requests := 2, nextId := 2 }

/-- A blocking pool with a set timeout whose single slot is checked out
(state reached from `mkPool "h" none (some 3) 1 true` by one
acquisition). -/
def poolDrained : PoolState :=
  { host := "h", port := none, timeout := some 3, capacity := 1,
    block := true, queue := [], num_connections := 1, num_requests := 1,
    nextId := 1 }

/-- A non-blocking pool currently holding one resident connection
handle. -/
def poolOneConn : PoolState :=
  { host := "h", port := none, timeout := none, capacity := 1,
    block := false, queue := [some 7], num_connections := 1,
    num_requests := 1, nextId := 8 }

theorem get_conn_spec (p : PoolState) (hb : getBlocks p = false) :
    ∃ c p1, HTTPConnectionPool._get_conn p p.timeout = (.conn c, p1) ∧
      p1.queue = p.queue.tail ∧ p1.timeout = p.timeout ∧
      p1.capacity = p.capacity ∧ p1.block = p.block := by
  simp only [getBlocks, Bool.and_eq_false_iff] at hb
  cases hq : p.queue with
  | nil =>
    cases hblock : p.block with
    | false =>
      refine ⟨p.nextId,
        { p with num_connections := p.num_connections + 1,
                 nextId := p.nextId + 1 }, ?_, ?_, ?_, ?_, ?_⟩ <;>
        simp [HTTPConnectionPool._get_conn, queueGet,
          HTTPConnectionPool._new_conn, hq, hblock]
    | true =>
      cases htime : p.timeout with
      | none =>
        exfalso
        rcases hb with h1 | h2
        · rcases h1 with h1 | h1
          · simp [hq] at h1
          · simp [hblock] at h1
        · simp [htime] at h2
      | some t =>
        refine ⟨p.nextId,
          { p with num_connections := p.num_connections + 1,
                   nextId := p.nextId + 1 }, ?_, ?_, ?_, ?_, ?_⟩ <;>
          simp [HTTPConnectionPool._get_conn, queueGet,
            HTTPConnectionPool._new_conn, hq, hblock, htime]
  | cons x tl =>
    cases x with
    | none =>
      refine ⟨p.nextId,
        { p with queue := p.queue.tail,
                 num_connections := p.num_connections + 1,
                 nextId := p.nextId + 1 }, ?_, ?_, ?_, ?_, ?_⟩ <;>
        simp [HTTPConnectionPool._get_conn, queueGet,
          HTTPConnectionPool._new_conn, hq]
    | some c =>
      refine ⟨c, { p with queue := p.queue.tail }, ?_, ?_, ?_, ?_, ?_⟩ <;>
        simp [HTTPConnectionPool._get_conn, queueGet, hq]


theorem put_conn_timeout (p : PoolState) (c : Nat) :
    (HTTPConnectionPool._put_conn p c).timeout = p.timeout := by
  unfold HTTPConnectionPool._put_conn
  split <;> rfl

theorem residentCount_tail_le (p p' : PoolState)
    (hq : p'.queue = p.queue.tail) : residentCount p' ≤ residentCount p := by
  unfold residentCount
  rw [hq]
  cases p.queue with
  | nil => simp
  | cons x tl =>
    simp only [List.tail_cons, List.countP_cons]
    exact Nat.le_add_right _ _

theorem urlopen_neg_retries (p : PoolState) (trace : List ExchangeOutcome)
    (m u : String) (b : Option String) (hs : List (String × String))
    (retries : Int) (rd : Bool) (hr : retries < 0) :
    HTTPConnectionPool.urlopen p trace m u b hs retries rd
      = (.maxRetryError u, p, trace) := by
  rw [HTTPConnectionPool.urlopen]
  simp [hr]

theorem urlopen_step_transportError (p : PoolState)
    (rest : List ExchangeOutcome) (m u : String) (b : Option String)
    (hs : List (String × String)) (retries : Int) (rd : Bool)
    (hr : ¬ retries < 0) (hb : getBlocks p = false) :
    ∃ p', HTTPConnectionPool.urlopen p (.transportError :: rest) m u b hs retries rd
        = HTTPConnectionPool.urlopen p' rest m u b hs (retries - 1) rd ∧
      p'.queue = p.queue.tail ∧ p'.timeout = p.timeout ∧
      p'.capacity = p.capacity ∧ p'.block = p.block := by
  obtain ⟨c, p1, hgc, hqu, hti, hcap, hbl⟩ := get_conn_spec p hb
  refine ⟨{ p1 with num_requests := p1.num_requests + 1 }, ?_, ?_, ?_, ?_, ?_⟩
  · rw [HTTPConnectionPool.urlopen]
    simp [hr, hgc]
  · simpa using hqu
  · simpa using hti
  · simpa using hcap
  · simpa using hbl

theorem urlopen_step_success_redirect (p : PoolState) (r : TransportResponse)
    (rest : List ExchangeOutcome) (m u : String) (b : Option String)
    (hs : List (String × String)) (retries : Int) (loc : String)
    (hr : ¬ retries < 0) (hb : getBlocks p = false)
    (hst : (HTTPResponse.from_httplib r).status ∈ ([301, 302, 303, 307] : List Int))
    (hloc : dictGet (HTTPResponse.from_httplib r).headers "location" = some loc) :
    ∃ p', HTTPConnectionPool.urlopen p (.success r :: rest) m u b hs retries true
        = HTTPConnectionPool.urlopen p' rest m loc b hs (retries - 1) true := by
  obtain ⟨c, p1, hgc, hqu, hti, hcap, hbl⟩ := get_conn_spec p hb
  refine ⟨HTTPConnectionPool._put_conn
    { p1 with num_requests := p1.num_requests + 1 } c, ?_⟩
  rw [HTTPConnectionPool.urlopen]
  simp [hr, hgc, hst, hloc]

theorem urlopen_step_success_noloc (p : PoolState) (r : TransportResponse)
    (rest : List ExchangeOutcome) (m u : String) (b : Option String)
    (hs : List (String × String)) (retries : Int)
    (hr : ¬ retries < 0) (hb : getBlocks p = false)
    (hloc : dictGet (HTTPResponse.from_httplib r).headers "location" = none) :
    ∃ p', HTTPConnectionPool.urlopen p (.success r :: rest) m u b hs retries true
        = (.ok (HTTPResponse.from_httplib r), p', rest) := by
  obtain ⟨c, p1, hgc, hqu, hti, hcap, hbl⟩ := get_conn_spec p hb
  refine ⟨HTTPConnectionPool._put_conn
    { p1 with num_requests := p1.num_requests + 1 } c, ?_⟩
  rw [HTTPConnectionPool.urlopen]
  by_cases hst : (HTTPResponse.from_httplib r).status ∈ ([301, 302, 303, 307] : List Int)
  · simp [hr, hgc, hst, hloc]
  · simp [hr, hgc, hst]

theorem urlopen_step_timeout (p : PoolState) (rest : List ExchangeOutcome)
    (m u : String) (b : Option String) (hs : List (String × String))
    (retries : Int) (rd : Bool) (t : Nat)
    (hr : ¬ retries < 0) (hb : getBlocks p = false) (ht : p.timeout = some t) :
    ∃ p', HTTPConnectionPool.urlopen p (.timeout :: rest) m u b hs retries rd
        = (.timeoutRaised t, p', rest) := by
  obtain ⟨c, p1, hgc, hqu, hti, hcap, hbl⟩ := get_conn_spec p hb
  refine ⟨{ p1 with num_requests := p1.num_requests + 1 }, ?_⟩
  rw [HTTPConnectionPool.urlopen, if_neg hr, hgc]
  simp [ht]

/-- C1: the claim states that a pool constructed with `blocking=true` and a
set timeout fails an acquisition that finds no free slot within the timeout
with an acquire-timeout error and constructs no connection outside the
tracked capacity. The code does neither: `Queue.get` raises `Empty` after
the wait, `_get_conn` swallows it (`pass`) and falls through to
`_new_conn()`, returning an untracked overflow connection — so the
`except (TimeoutError, Empty)` branch of `urlopen` ("Timed out either by
socket or queue") is unreachable for the queue, and the `block`
docstring's "no more than maxsize connections will be used at a time" is
violated. This theorem evaluates the code at the failing input: a
blocking, timeout-3, capacity-1 pool whose slot is checked out yields a
second, fresh connection (`num_connections` grows to 2) and the request
completes normally. -/
theorem spec_C1_behavior :
    HTTPConnectionPool._get_conn poolDrained poolDrained.timeout
      = (.conn 1, { poolDrained with num_connections := 2, nextId := 2 }) ∧
    (HTTPConnectionPool.urlopen poolDrained [.success r200t]
        "GET" "http://h/a" none [] 3 true).1
      = .ok (HTTPResponse.from_httplib r200t) := by
  constructor
  · decide
  · decide

/-- C2: with `redirect=true`, an exchange yielding a response whose status
is in 301/302/303/307 and whose header dict has a `location` entry makes
`urlopen` recurse on the location value with `retries - 1` and the same
method, body and headers; concretely, a 302-with-location followed by a
200 returns the 200 response, and a single budget unit (retries = 1)
suffices for the hop while retries = 0 does not (the hop consumes exactly
one unit, surfacing as `MaxRetryError` on the redirect target). -/
theorem spec_C2 :
    (∀ (p : PoolState) (r : TransportResponse) (rest : List ExchangeOutcome)
      (m u : String) (b : Option String) (hs : List (String × String))
      (retries : Int) (loc : String), ¬ retries < 0 → getBlocks p = false →
      (HTTPResponse.from_httplib r).status ∈ ([301, 302, 303, 307] : List Int) →
      dictGet (HTTPResponse.from_httplib r).headers "location" = some loc →
      ∃ p', HTTPConnectionPool.urlopen p (.success r :: rest) m u b hs retries true
          = HTTPConnectionPool.urlopen p' rest m loc b hs (retries - 1) true) ∧
    (HTTPConnectionPool.urlopen poolA [.success r302t, .success r200t]
        "GET" "http://h/a" none [] 1 true).1
      = .ok (HTTPResponse.from_httplib r200t) ∧
    (HTTPConnectionPool.urlopen poolA [.success r302t, .success r200t]
        "GET" "http://h/a" none [] 0 true).1
      = .maxRetryError "http://h/b" := by
  refine ⟨?_, by decide, by decide⟩
  intro p r rest m u b hs retries loc hr hb hst hloc
  exact urlopen_step_success_redirect p r rest m u b hs retries loc hr hb hst hloc

/-- C2 witness: the redirect step of `spec_C2` applied at a concrete 302
response carrying `location: http://h/b`, with retries 3 recursing at
retries 2. -/
theorem spec_C2_witness :
    (¬ (3 : Int) < 0) ∧
    (∃ p', HTTPConnectionPool.urlopen poolA [.success r302t] "GET" "http://h/a"
        none [] 3 true
      = HTTPConnectionPool.urlopen p' [] "GET" "http://h/b" none [] 2 true) := by
  refine ⟨by decide, ?_⟩
  exact spec_C2.1 poolA r302t [] "GET" "http://h/a" none [] 3 "http://h/b"
    (by decide) (by decide) (by decide) (by decide)

/-- C3: `urlopen` with `retries < 0` terminates at once with
`MaxRetryError`, leaving the pool state and the exchange trace untouched
(so no connection was acquired and no exchange attempted); consequently a
call with `retries = 0` whose first exchange raises a transport error
fails with `MaxRetryError` having consumed exactly the one scripted
exchange (the remaining trace is `rest`). -/
theorem spec_C3 :
    (∀ (p : PoolState) (trace : List ExchangeOutcome) (m u : String)
      (b : Option String) (hs : List (String × String)) (retries : Int)
      (rd : Bool), retries < 0 →
      HTTPConnectionPool.urlopen p trace m u b hs retries rd
        = (.maxRetryError u, p, trace)) ∧
    (∀ (p : PoolState) (rest : List ExchangeOutcome) (m u : String)
      (b : Option String) (hs : List (String × String)) (rd : Bool),
      getBlocks p = false →
      (HTTPConnectionPool.urlopen p (.transportError :: rest) m u b hs 0 rd).1
        = .maxRetryError u ∧
      (HTTPConnectionPool.urlopen p (.transportError :: rest) m u b hs 0 rd).2.2
        = rest) := by
  refine ⟨urlopen_neg_retries, ?_⟩
  intro p rest m u b hs rd hb
  obtain ⟨p', heq, -, -, -, -⟩ :=
    urlopen_step_transportError p rest m u b hs 0 rd (by decide) hb
  rw [heq, urlopen_neg_retries p' rest m u b hs (0 - 1) rd (by decide)]
  exact ⟨rfl, rfl⟩

/-- C3 witness: both parts of `spec_C3` at concrete inputs: retries −1
returns `MaxRetryError` with pool and trace untouched; retries 0 with one
transport error returns `MaxRetryError` with an empty remaining trace. -/
theorem spec_C3_witness :
    HTTPConnectionPool.urlopen poolA [] "GET" "u" none [] (-1) true
      = (.maxRetryError "u", poolA, []) ∧
    (HTTPConnectionPool.urlopen poolA [.transportError] "GET" "u" none [] 0 true).1
      = .maxRetryError "u" ∧
    (HTTPConnectionPool.urlopen poolA [.transportError] "GET" "u" none [] 0 true).2.2
      = [] := by
  refine ⟨spec_C3.1 poolA [] "GET" "u" none [] (-1) true (by decide), ?_, ?_⟩
  · exact (spec_C3.2 poolA [] "GET" "u" none [] true (by decide)).1
  · exact (spec_C3.2 poolA [] "GET" "u" none [] true (by decide)).2

/-- C4: releasing a connection into a pool of positive capacity `N` whose
container already holds `N` resident handles does not raise (`_put_conn`
is total: the `Full` exception is caught) and leaves the state — in
particular the resident count, which stays exactly `N` — unchanged: the
connection is silently dropped. -/
theorem spec_C4 (p : PoolState) (c : Nat) (hcap : 0 < p.capacity)
    (hlen : p.queue.length = p.capacity)
    (hres : ∀ x ∈ p.queue, x.isSome = true) :
    HTTPConnectionPool._put_conn p c = p ∧
    residentCount (HTTPConnectionPool._put_conn p c) = p.capacity := by
  have heq : HTTPConnectionPool._put_conn p c = p := by
    unfold HTTPConnectionPool._put_conn
    rw [if_pos ⟨hcap, by omega⟩]
  refine ⟨heq, ?_⟩
  rw [heq]
  unfold residentCount
  rw [List.countP_eq_length.mpr ?_, hlen]
  intro a ha
  simpa using hres a ha

/-- C4 witness: `spec_C4` at a full capacity-2 pool and connection 9. -/
theorem spec_C4_witness :
    0 < poolFull.capacity ∧
    HTTPConnectionPool._put_conn poolFull 9 = poolFull ∧
    residentCount (HTTPConnectionPool._put_conn poolFull 9) = poolFull.capacity := by
  refine ⟨by decide, ?_, ?_⟩
  · exact (spec_C4 poolFull 9 (by decide) (by decide) (by decide)).1
  · exact (spec_C4 poolFull 9 (by decide) (by decide) (by decide)).2

/-- C5 counterexample: header lookup is not case-insensitive. For the 302
response whose transport reports the redirect target only under the key
`Location`, `getheader "location"` is `None` while `getheader "Location"`
finds the value, and `urlopen` with `redirect=true` does not treat the
response as having a location header: it returns the 302 itself instead
of following the redirect. -/
theorem spec_C5_counterexample :
    HTTPResponse.getheader (HTTPResponse.from_httplib rLoc302t) "location" = none ∧
    HTTPResponse.getheader (HTTPResponse.from_httplib rLoc302t) "Location"
      = some "http://h/c" ∧
    (HTTPConnectionPool.urlopen poolA [.success rLoc302t, .success r200t]
        "GET" "http://h/a" none [] 3 true).1
      = .ok (HTTPResponse.from_httplib rLoc302t) := by
  refine ⟨by decide, by decide, by decide⟩

/-- C5 (amended): header lookup is case-sensitive exact-key dict lookup:
for a redirect-status response whose header dict has no entry under the
exact key `location` (even when it has one under `Location`),
`getheader "location"` is `None`, `getheader "Location"` returns the
stored value, and `urlopen` returns the response as final instead of
redirecting — the remaining trace `rest` shows no further exchange. -/
theorem spec_C5_amended (p : PoolState) (r : TransportResponse)
    (rest : List ExchangeOutcome) (m u : String) (b : Option String)
    (hs : List (String × String)) (retries : Int) (loc2 : String)
    (hr : ¬ retries < 0) (hb : getBlocks p = false)
    (hst : (HTTPResponse.from_httplib r).status ∈ ([301, 302, 303, 307] : List Int))
    (hloc : dictGet (HTTPResponse.from_httplib r).headers "location" = none)
    (hL : dictGet (HTTPResponse.from_httplib r).headers "Location" = some loc2) :
    HTTPResponse.getheader (HTTPResponse.from_httplib r) "location" = none ∧
    HTTPResponse.getheader (HTTPResponse.from_httplib r) "Location" = some loc2 ∧
    ∃ p', HTTPConnectionPool.urlopen p (.success r :: rest) m u b hs retries true
        = (.ok (HTTPResponse.from_httplib r), p', rest) := by
  refine ⟨hloc, hL, ?_⟩
  exact urlopen_step_success_noloc p r rest m u b hs retries hr hb hloc

/-- C5 witness: `spec_C5_amended` at the concrete `Location`-only 302
response. -/
theorem spec_C5_witness :
    (¬ (3 : Int) < 0) ∧
    HTTPResponse.getheader (HTTPResponse.from_httplib rLoc302t) "location" = none ∧
    HTTPResponse.getheader (HTTPResponse.from_httplib rLoc302t) "Location"
      = some "http://h/c" ∧
    ∃ p', HTTPConnectionPool.urlopen poolA [.success rLoc302t] "GET" "http://h/a"
        none [] 3 true
      = (.ok (HTTPResponse.from_httplib rLoc302t), p', []) := by
  refine ⟨by decide, ?_⟩
  exact spec_C5_amended poolA rLoc302t [] "GET" "http://h/a" none [] 3
    "http://h/c" (by decide) (by decide) (by decide) (by decide) (by decide)

/-- C6 counterexample: a failing attempt does change the pool's resident
count. Starting from a pool holding one resident handle, an attempt whose
exchange raises a transport error pops that handle and never returns it:
the resident count drops from 1 to 0 (here with retries 0 the retry then
terminates in `MaxRetryError`, leaving the pool empty). -/
theorem spec_C6_counterexample :
    residentCount poolOneConn = 1 ∧
    (HTTPConnectionPool.urlopen poolOneConn [.transportError]
        "GET" "u" none [] 0 true).1 = .maxRetryError "u" ∧
    residentCount (HTTPConnectionPool.urlopen poolOneConn [.transportError]
        "GET" "u" none [] 0 true).2.1 = 0 := by
  refine ⟨by decide, by decide, by decide⟩

/-- C6 (amended): on a transport-error exchange the failing connection is
not returned to the pool — no release happens on that path, so the pool's
container after the attempt is exactly the post-acquisition state
`p.queue.tail` (one slot fewer whenever the acquisition drew from the
pool, never more), hence the resident count cannot grow — and the request
is retried with the same method/url/body/headers and `retries - 1`,
consuming one unit of the shared budget. -/
theorem spec_C6_amended (p : PoolState) (rest : List ExchangeOutcome)
    (m u : String) (b : Option String) (hs : List (String × String))
    (retries : Int) (rd : Bool)
    (hr : ¬ retries < 0) (hb : getBlocks p = false) :
    ∃ p', HTTPConnectionPool.urlopen p (.transportError :: rest) m u b hs retries rd
        = HTTPConnectionPool.urlopen p' rest m u b hs (retries - 1) rd ∧
      p'.queue = p.queue.tail ∧ residentCount p' ≤ residentCount p := by
  obtain ⟨p', heq, hqu, -, -, -⟩ :=
    urlopen_step_transportError p rest m u b hs retries rd hr hb
  exact ⟨p', heq, hqu, residentCount_tail_le p p' hqu⟩

/-- C6 witness: `spec_C6_amended` at the one-resident-handle pool: the
transport-error attempt retries at retries 1 with the handle gone. -/
theorem spec_C6_witness :
    (¬ (2 : Int) < 0) ∧
    ∃ p', HTTPConnectionPool.urlopen poolOneConn [.transportError, .success r200t]
        "GET" "u" none [] 2 true
      = HTTPConnectionPool.urlopen p' [.success r200t] "GET" "u" none [] 1 true ∧
      p'.queue = [] ∧ residentCount p' ≤ residentCount poolOneConn := by
  refine ⟨by decide, ?_⟩
  exact spec_C6_amended poolOneConn [.success r200t] "GET" "u" none [] 2 true
    (by decide) (by decide)

/-- C7 counterexample: when the configured timeout is unset (`None`) and
the exchange nevertheless times out (possible: OS-level `ETIMEDOUT` is a
`TimeoutError`), the handler's `"%f" % self.timeout` formatting raises
`TypeError` — the call does not terminate with a timeout-kind error
carrying the configured value. -/
theorem spec_C7_counterexample :
    poolA.timeout = none ∧
    (HTTPConnectionPool.urlopen poolA [.timeout] "GET" "u" none [] 3 true).1
      = .typeErrorRaised := by
  refine ⟨by decide, by decide⟩

/-- C7 (amended): when the configured timeout is set to `t`, an exchange
that times out makes the call terminate by raising a timeout error
carrying `t`; it is not retried — no recursion happens and the remaining
trace `rest` shows no further exchange was attempted. When the timeout is
unset the handler instead raises `TypeError` (see the counterexample). -/
theorem spec_C7_amended (p : PoolState) (rest : List ExchangeOutcome)
    (m u : String) (b : Option String) (hs : List (String × String))
    (retries : Int) (rd : Bool) (t : Nat)
    (hr : ¬ retries < 0) (hb : getBlocks p = false) (ht : p.timeout = some t) :
    ∃ p', HTTPConnectionPool.urlopen p (.timeout :: rest) m u b hs retries rd
        = (.timeoutRaised t, p', rest) := by
  exact urlopen_step_timeout p rest m u b hs retries rd t hr hb ht

/-- C7 witness: `spec_C7_amended` at the timeout-3 pool: the raised error
carries 3 and the scripted follow-up exchange is never consumed. -/
theorem spec_C7_witness :
    poolDrained.timeout = some 3 ∧
    ∃ p', HTTPConnectionPool.urlopen poolDrained [.timeout, .success r200t]
        "GET" "u" none [] 5 true
      = (.timeoutRaised 3, p', [.success r200t]) := by
  refine ⟨by decide, ?_⟩
  exact spec_C7_amended poolDrained [.success r200t] "GET" "u" none [] 5 true 3
    (by decide) (by decide) (by decide)

/-- C8: `get_host` splits each of the four URL shapes into
(host, port-or-absent), parsing a present port as an integer:
`scheme://host/path`, `host:port`, `host:port/path`, and bare `host`; in
particular the two examples from the docstring. -/
theorem spec_C8 :
    HTTPConnectionPool.get_host "http://example.com/mail/"
      = some ("example.com", none) ∧
    HTTPConnectionPool.get_host "example.com:80"
      = some ("example.com", some 80) ∧
    HTTPConnectionPool.get_host "example.com:80/x"
      = some ("example.com", some 80) ∧
    HTTPConnectionPool.get_host "example.com"
      = some ("example.com", none) := by
  refine ⟨by decide, by decide, by decide, by decide⟩

/-- C9: round-trip — `from_url "http://host:1234/x"` yields a pool whose
host is `host` and whose port is `1234`. -/
theorem spec_C9 :
    (HTTPConnectionPool.from_url "http://host:1234/x" none 10).map
        (fun p => (p.host, p.port))
      = some ("host", some 1234) := by
  decide

/-- C10: `get_host` (and therefore `from_url`) is partial: on inputs whose
text after the last colon of the host segment is not a decimal integer —
`example.com:` and `example.com:abc` — `int()` raises `ValueError`
(modelled by `none`) instead of producing a (host, port) pair. -/
theorem spec_C10 :
    HTTPConnectionPool.get_host "example.com:" = none ∧
    HTTPConnectionPool.get_host "example.com:abc" = none ∧
    HTTPConnectionPool.from_url "example.com:" none 10 = none := by
  refine ⟨by decide, by decide, by decide⟩
